import Mathlib

/-!
Verification of the DocTalk Lambda document processor against its
natural-language specification.

The development shallowly embeds the Python sources:
  lambda_function.py   (pipeline orchestrator and batch handler)
  database/operations.py (status update, bulk chunk insert, chunk delete)
  utils/exceptions.py  (error taxonomy)

External collaborators (S3 client, LangChain loaders and text splitter,
OpenAI embeddings, psycopg2 transport failures) are modelled as an
environment record of pure functions and failure flags; the repository's
own control flow, state updates and data shapes are translated from the
source line by line.
-/

namespace DocTalk

/-- Error taxonomy of utils/exceptions.py.  The repository defines exactly
these exception classes (there is no UnsupportedTypeError class);
otherError stands for non-DocTalk exceptions such as botocore or psycopg2
errors propagating raw. -/
inductive PyErr where
  | validationError (m : String)
  | s3DownloadError (m : String)
  | parsingError (m : String)
  | chunkingError (m : String)
  | embeddingError (m : String)
  | databaseError (m : String)
  | configurationError (m : String)
  | otherError (m : String)
deriving Repr, DecidableEq

/-- Result of Python str(e): the message the exception carries. -/
def PyErr.msg : PyErr → String
  | .validationError m => m
  | .s3DownloadError m => m
  | .parsingError m => m
  | .chunkingError m => m
  | .embeddingError m => m
  | .databaseError m => m
  | .configurationError m => m
  | .otherError m => m

/-- Python class name of the raised exception, as a caller's except clause
would discriminate it. -/
def PyErr.className : PyErr → String
  | .validationError _ => "ValidationError"
  | .s3DownloadError _ => "S3DownloadError"
  | .parsingError _ => "ParsingError"
  | .chunkingError _ => "ChunkingError"
  | .embeddingError _ => "EmbeddingError"
  | .databaseError _ => "DatabaseError"
  | .configurationError _ => "ConfigurationError"
  | .otherError _ => "Exception"

/-- LangChain Document metadata as read by lambda_function.py: the keys
'page', 'page_number' and 'source' (absent key = none). -/
structure Metadata where
  page : Option Nat
  page_number : Option Nat
  source : Option String
deriving Repr, DecidableEq

/-- A LangChain Document: one parsed page/section (loader output) or one
chunk (splitter output); both carry page_content plus metadata. -/
structure ParsedUnit where
  page_content : String
  metadata : Metadata
deriving Repr, DecidableEq

/-- The metadata dict written into each stored chunk row:
source (defaulted to the empty string), total_chunks, and the spread of
the chunk's own metadata keys. -/
structure RowMeta where
  source : String
  total_chunks : Nat
  page : Option Nat
  page_number : Option Nat
deriving Repr, DecidableEq

/-- One row of the document_chunks table.  The embedding column is none
when the vector serialization received a falsy (empty) vector. -/
structure ChunkRow where
  document_id : String
  content : String
  embedding : Option (List Int)
  chunk_index : Nat
  page_number : Nat
  metadata : RowMeta
deriving Repr, DecidableEq

/-- One row of the documents table (the columns operations.py touches). -/
structure DocRow where
  id : String
  user_id : String
  filename : String
  file_type : String
  file_size : Nat
  status : String
  error_message : Option String
  page_count : Option Nat
  chunk_count : Option Nat
  s3_key : String
deriving Repr, DecidableEq

/-- The PostgreSQL state the Lambda mutates: documents and their chunks. -/
structure DbState where
  documents : List DocRow
  chunks : List ChunkRow
deriving Repr, DecidableEq

/-- The chunk dictionaries prepared in process_document and handed to
bulk_insert_chunks. -/
structure DbChunk where
  content : String
  embedding : List Int
  chunk_index : Nat
  page_number : Nat
  metadata : RowMeta
deriving Repr, DecidableEq

/-- Per-document outcome dictionary returned by process_document. -/
structure ProcResult where
  document_id : String
  status : String
  page_count : Nat
  chunk_count : Nat
deriving Repr, DecidableEq

/-- operations.py get_document_by_s3_key: first documents row whose s3_key
matches (None when absent). -/
def get_document_by_s3_key (db : DbState) (s3_key : String) : Option DocRow :=
  db.documents.find? (fun row => row.s3_key = s3_key)

/-- operations.py update_document_status: one UPDATE that sets status and
all three optional columns (error_message, page_count, chunk_count) on the
matching row — omitted arguments arrive as None and are stored as NULL.
Returns whether a row matched, with the new table state. -/
def update_document_status (db : DbState) (document_id status : String)
    (error_message : Option String) (page_count chunk_count : Option Nat) :
    Bool × DbState :=
  let updated := db.documents.map (fun row =>
    if row.id = document_id then
      { row with status := status, error_message := error_message,
                 page_count := page_count, chunk_count := chunk_count }
    else row)
  let rows_updated := db.documents.countP (fun row => row.id = document_id)
  (rows_updated > 0, { db with documents := updated })

/-- operations.py bulk_insert_chunks: empty input returns 0 without touching
the database; otherwise all rows are inserted in one committed transaction
(fails = an injected psycopg2 error, which rolls back and raises
DatabaseError leaving the table untouched).  The embedding list is
serialized unless falsy (empty), in which case NULL is stored:
chunkRowOf is the row built from one prepared chunk dictionary. -/
def chunkRowOf (document_id : String) (c : DbChunk) : ChunkRow :=
  { document_id := document_id, content := c.content,
    embedding := if c.embedding = [] then none else some c.embedding,
    chunk_index := c.chunk_index, page_number := c.page_number,
    metadata := c.metadata }

def bulk_insert_chunks (fails : Bool) (db : DbState) (document_id : String)
    (chunks : List DbChunk) : Except PyErr (Nat × DbState) :=
  if chunks = [] then .ok (0, db)
  else if fails then .error (.databaseError "Failed to insert chunks")
  else
    let rows := chunks.map (chunkRowOf document_id)
    .ok (chunks.length, { db with chunks := db.chunks ++ rows })

/-- operations.py delete_document_chunks: removes every chunk row of the
document.  Defined in the repository "for reprocessing documents" but never
called by the pipeline. -/
def delete_document_chunks (db : DbState) (document_id : String) :
    Nat × DbState :=
  let remaining := db.chunks.filter (fun c => ¬ (c.document_id = document_id))
  let rows_deleted := db.chunks.countP (fun c => c.document_id = document_id)
  (rows_deleted, { db with chunks := remaining })

/-- Environment of external collaborators and injected failures.  Functions
are keyed by the data that determines the real call's behaviour: the S3 key
(which fixes the stored object and hence the downloaded file's contents),
the declared file type, the document id, or the status being written. -/
structure Env where
  configOk : Bool
  s3BucketName : String
  downloadOk : String → Bool
  loaderInitErr : String → Option String
  loadResult : String → Except PyErr (List ParsedUnit)
  split : List ParsedUnit → List ParsedUnit
  embed : List String → Except PyErr (List (List Int))
  updateFails : String → String → Bool
  insertFails : String → Bool
  lookupFails : String → Bool

/-- Lambda-local state: the database plus the /tmp scratch directory
(tracked as the list of files currently existing there, with a counter
standing for the OS's fresh-name generation). -/
structure LocalState where
  db : DbState
  tmpFiles : List String
  nextTmp : Nat
deriving Repr, DecidableEq

/-- Fresh scratch-file name generation of tempfile.NamedTemporaryFile,
abstracted as a counter. -/
def tmpName (n : Nat) : String :=
  "/tmp/scratch" ++ toString n

/-- lambda_function.py download_from_s3: a named temporary file is created
first (delete=False), then the S3 object is fetched into it; a fetch
failure raises after the file already exists on disk, and the path is
returned only on success. -/
def download_from_s3 (env : Env) (st : LocalState) (bucket key : String) :
    Except PyErr String × LocalState :=
  let temp_path := tmpName st.nextTmp
  let st1 := { st with tmpFiles := st.tmpFiles ++ [temp_path],
                       nextTmp := st.nextTmp + 1 }
  if env.downloadOk key then (.ok temp_path, st1)
  else (.error (.otherError ("Failed to download s3://" ++ bucket ++ "/" ++ key)),
        st1)

/-- The four LangChain loader classes the dispatch table maps to. -/
inductive LoaderKind where
  | pypdf
  | docx2txt
  | textLoader
  | markdown
deriving Repr, DecidableEq

/-- A constructed loader instance (class plus the path it was given). -/
structure Loader where
  kind : LoaderKind
  file_path : String
deriving Repr, DecidableEq

/-- The loaders dict of get_loader_for_file_type: the enumerated supported
MIME types and their loader classes. -/
def loaderClassFor (file_type : String) : Option LoaderKind :=
  if file_type = "application/pdf" then some .pypdf
  else if file_type = "application/vnd.openxmlformats-officedocument.wordprocessingml.document" then
    some .docx2txt
  else if file_type = "text/plain" then some .textLoader
  else if file_type = "text/markdown" then some .markdown
  else none

/-- The supported MIME type set, as enumerated in the dispatch table. -/
def supportedFileTypes : List String :=
  ["application/pdf",
   "application/vnd.openxmlformats-officedocument.wordprocessingml.document",
   "text/plain",
   "text/markdown"]

/-- lambda_function.py get_loader_for_file_type: an unknown content type
raises ParsingError("Unsupported file type: ..."); a loader constructor
that throws is wrapped in ParsingError("Failed to initialize loader ..."). -/
def get_loader_for_file_type (env : Env) (file_path file_type : String) :
    Except PyErr Loader :=
  match loaderClassFor file_type with
  | none => .error (.parsingError ("Unsupported file type: " ++ file_type))
  | some k =>
    match env.loaderInitErr file_type with
    | some e =>
      .error (.parsingError
        ("Failed to initialize loader for " ++ file_type ++ ": " ++ e))
    | none => .ok { kind := k, file_path := file_path }

/-- Python chunk.metadata.get('page', chunk.metadata.get('page_number')):
the page value when the 'page' key is present (even 0), else the
'page_number' value, else absent. -/
def metaPage (m : Metadata) : Option Nat :=
  match m.page with
  | some p => some p
  | none => m.page_number

/-- Python chunk.metadata.get('page', chunk.metadata.get('page_number', 1)):
as metaPage but defaulting to 1, used for the stored page_number column. -/
def metaPageD1 (m : Metadata) : Nat :=
  match m.page with
  | some p => p
  | none => m.page_number.getD 1

/-- The page numbers process_document collects into its page_numbers set:
each chunk's metaPage value, kept only when truthy (present and nonzero —
Python's `if page_num:` drops both None and 0). -/
def truthyPageList (chunks : List ParsedUnit) : List Nat :=
  (chunks.filterMap (fun c => metaPage c.metadata)).filter (fun p => p ≠ 0)

/-- The page_count computation of process_document: max(page_numbers) when
the collected set is nonempty, else len(documents). -/
def pageCountOf (documents chunks : List ParsedUnit) : Nat :=
  let page_list := truthyPageList chunks
  if page_list = [] then documents.length
  else page_list.foldl Nat.max 0

/-- The chunk dictionaries process_document builds from
enumerate(zip(chunks, embeddings)): positional pairing of chunk texts with
vectors, the running index as chunk_index, and the metadata dict holding
source (defaulted), total_chunks and the chunk's own metadata. -/
def buildDbChunks (chunks : List ParsedUnit) (embeddings : List (List Int)) :
    List DbChunk :=
  ((chunks.zip embeddings).enum).map (fun ie =>
    let chunk := ie.2.1
    ({ content := chunk.page_content,
       embedding := ie.2.2,
       chunk_index := ie.1,
       page_number := metaPageD1 chunk.metadata,
       metadata := { source := chunk.metadata.source.getD "",
                     total_chunks := chunks.length,
                     page := chunk.metadata.page,
                     page_number := chunk.metadata.page_number } } : DbChunk))

/-- The try-block of lambda_function.py process_document, threading the
database and scratch-file state and returning, besides the outcome, the
value of the temp_file_path local at exit (None until download_from_s3
returns).  Stage order: status→processing, download, loader dispatch,
load, empty-document check, split, empty-chunk check, embed, bulk insert,
page-count computation, status→ready. -/
def process_document_body (env : Env) (st : LocalState)
    (document_id s3_key file_type : String) :
    Except PyErr ProcResult × LocalState × Option String :=
  if env.updateFails document_id "processing" then
    (.error (.databaseError "Failed to update document status"), st, none)
  else
    let db1 := (update_document_status st.db document_id "processing"
                  none none none).2
    let st1 := { st with db := db1 }
    match download_from_s3 env st1 env.s3BucketName s3_key with
    | (.error e, st2) => (.error e, st2, none)
    | (.ok temp_path, st2) =>
      match get_loader_for_file_type env temp_path file_type with
      | .error e => (.error e, st2, some temp_path)
      | .ok _loader =>
        match env.loadResult s3_key with
        | .error e => (.error e, st2, some temp_path)
        | .ok documents =>
          if documents = [] then
            (.error (.parsingError "No content extracted from document"),
             st2, some temp_path)
          else
            let chunks := env.split documents
            if chunks = [] then
              (.error (.parsingError "No chunks created from document"),
               st2, some temp_path)
            else
              let texts := chunks.map (fun c => c.page_content)
              match env.embed texts with
              | .error e => (.error e, st2, some temp_path)
              | .ok embeddings =>
                let db_chunks := buildDbChunks chunks embeddings
                match bulk_insert_chunks (env.insertFails document_id)
                        st2.db document_id db_chunks with
                | .error e => (.error e, st2, some temp_path)
                | .ok (chunk_count, db2) =>
                  let page_count := pageCountOf documents chunks
                  if env.updateFails document_id "ready" then
                    (.error (.databaseError "Failed to update document status"),
                     { st2 with db := db2 }, some temp_path)
                  else
                    let db3 := (update_document_status db2 document_id "ready"
                                  none (some page_count) (some chunk_count)).2
                    (.ok { document_id := document_id, status := "ready",
                           page_count := page_count,
                           chunk_count := chunk_count },
                     { st2 with db := db3 }, some temp_path)

/-- The finally-block of process_document: unlink the scratch file if the
temp_file_path local was assigned and the file exists (unlink errors are
logged and swallowed). -/
def cleanup_temp (st : LocalState) (tp : Option String) : LocalState :=
  match tp with
  | none => st
  | some p =>
    if p ∈ st.tmpFiles then
      { st with tmpFiles := st.tmpFiles.filter (fun q => ¬ (q = p)) }
    else st

/-- lambda_function.py process_document: run the try-block; on any
exception attempt a best-effort status update to failed carrying str(e)
(a DatabaseError from that write is itself caught and only logged), then
re-raise; in all cases run the finally-block cleanup. -/
def process_document (env : Env) (st : LocalState)
    (document_id s3_key file_type : String) :
    Except PyErr ProcResult × LocalState :=
  match process_document_body env st document_id s3_key file_type with
  | (.ok r, st1, tp) => (.ok r, cleanup_temp st1 tp)
  | (.error e, st1, tp) =>
    let db2 :=
      if env.updateFails document_id "failed" then st1.db
      else (update_document_status st1.db document_id "failed"
              (some e.msg) none none).2
    (.error e, cleanup_temp { st1 with db := db2 } tp)

/-- One entry of an S3 event's Records list, as read by the handler
(nested .get chains collapse to optional bucket name and object key). -/
structure S3ObjectRef where
  bucket : Option String
  key : Option String
deriving Repr, DecidableEq

/-- The parse of one SQS record's body: json.loads either raises
(malformed) or yields a dict with an optional Event marker and an optional
Records list. -/
inductive MessageBody where
  | malformed
  | parsed (event : Option String) (records : Option (List S3ObjectRef))
deriving Repr, DecidableEq

/-- One SQS record of the trigger event. -/
structure SqsRecord where
  body : MessageBody
deriving Repr, DecidableEq

/-- What one loop iteration of lambda_handler does with a record:
append a result, count a failure, or skip it (continue). -/
inductive RecordOutcome where
  | ok (r : ProcResult)
  | failed
  | skipped
deriving Repr, DecidableEq

def RecordOutcome.isFailed : RecordOutcome → Bool
  | .failed => true
  | _ => false

def RecordOutcome.result : RecordOutcome → Option ProcResult
  | .ok r => some r
  | _ => none

/-- Whether a record carries the synthetic S3 test-event marker the handler
skips. -/
def isTestEventRecord (rec : SqsRecord) : Bool :=
  match rec.body with
  | .parsed event _ => event = some "s3:TestEvent"
  | .malformed => false

/-- The tail of one handler iteration once an S3 entry is in hand: the
bucket/key presence check (Python truthiness: missing or empty string both
fail), the database lookup by key (a DatabaseError is caught as a
failure), and the per-document pipeline whose exception is caught and
counted. -/
def processEntry (env : Env) (st : LocalState) (entry : S3ObjectRef) :
    LocalState × RecordOutcome :=
  let s3_bucket := entry.bucket.getD ""
  let s3_key := entry.key.getD ""
  if s3_bucket = "" ∨ s3_key = "" then (st, .failed)
  else if env.lookupFails s3_key then (st, .failed)
  else
    match get_document_by_s3_key st.db s3_key with
    | none => (st, .failed)
    | some doc =>
      match process_document env st doc.id s3_key doc.file_type with
      | (.ok r, st2) => (st2, .ok r)
      | (.error _, st2) => (st2, .failed)

/-- One iteration of the handler's record loop: a body that fails to parse
is a failure; a test event is skipped; message_body.get('Records', [{}])[0]
takes the first entry, raising (a failure) on a present-but-empty list and
substituting an all-empty entry when the key is absent. -/
def processRecord (env : Env) (st : LocalState) (rec : SqsRecord) :
    LocalState × RecordOutcome :=
  match rec.body with
  | .malformed => (st, .failed)
  | .parsed event records =>
    if event = some "s3:TestEvent" then (st, .skipped)
    else
      match records with
      | some [] => (st, .failed)
      | some (entry :: _) => processEntry env st entry
      | none => processEntry env st { bucket := none, key := none }

/-- The handler's record loop: threads the state, collects per-success
results in order and counts failures. -/
def runRecords (env : Env) (st : LocalState) (records : List SqsRecord) :
    LocalState × List ProcResult × Nat :=
  match records with
  | [] => (st, [], 0)
  | r :: rest =>
    let step := processRecord env st r
    let tail := runRecords env step.1 rest
    match step.2 with
    | .ok pr => (tail.1, pr :: tail.2.1, tail.2.2)
    | .failed => (tail.1, tail.2.1, tail.2.2 + 1)
    | .skipped => (tail.1, tail.2.1, tail.2.2)

/-- The two body shapes lambda_handler can return: the configuration-error
body and the batch summary body. -/
inductive ResponseBody where
  | errorBody (error : String)
  | batchBody (message : String) (results : List ProcResult)
      (failed_count : Nat)
deriving Repr, DecidableEq

/-- The handler's HTTP-style response. -/
structure LambdaResponse where
  statusCode : Nat
  body : ResponseBody
deriving Repr, DecidableEq

/-- lambda_function.py lambda_handler: validate configuration (a failure
returns 500 before any processing), loop over the records, and return 200
when no failure was counted, 207 otherwise, with the summary message,
per-success results, and the failure count. -/
def lambda_handler (env : Env) (st : LocalState)
    (records : List SqsRecord) : LambdaResponse × LocalState :=
  if ¬ env.configOk then
    ({ statusCode := 500, body := .errorBody "Configuration error" }, st)
  else
    let run := runRecords env st records
    let success_count := run.2.1.length
    let total_count := records.length
    ({ statusCode := if run.2.2 = 0 then 200 else 207,
       body := .batchBody
         (s!"Processed {success_count}/{total_count} documents")
         run.2.1 run.2.2 },
     run.1)

/-- Claim-side page count, following the spec's words for comparison with
the code: the maximum observed page number across the parsed units,
falling back to the number of parsed units when no page metadata is
present. -/
def claimed_page_count (documents : List ParsedUnit) : Nat :=
  let observed := documents.filterMap (fun u => metaPage u.metadata)
  if observed = [] then documents.length else observed.foldl Nat.max 0

/-- Amended page count: as claimed_page_count but with page values of 0
treated like absent metadata, matching the code's Python truthiness test. -/
def unit_page_count (documents : List ParsedUnit) : Nat :=
  let observed := truthyPageList documents
  if observed = [] then documents.length else observed.foldl Nat.max 0

/-- The per-row effect on the documents table of a run that reaches ready:
the processing update followed by the ready update, both of which set all
optional columns. -/
def readyRow (document_id : String) (page_count chunk_count : Nat)
    (row : DocRow) : DocRow :=
  if row.id = document_id then
    { row with status := "ready", error_message := none,
               page_count := some page_count,
               chunk_count := some chunk_count }
  else row

/-- The chunk rows a successful run appends for the document. -/
def insertedRows (document_id : String) (chunks : List ParsedUnit)
    (embeddings : List (List Int)) : List ChunkRow :=
  (buildDbChunks chunks embeddings).map (chunkRowOf document_id)

/-- The fields of a documents row that identify it to the handler's lookup
path: its key, id and declared content type (the status columns the
pipeline rewrites are excluded). -/
def rowView (row : DocRow) : String × String × String :=
  (row.s3_key, row.id, row.file_type)

/-- What a record's processing reads from the documents table: whether a
row matches the key, and if so its id and file type. -/
def lookupView (docs : List DocRow) (k : String) :
    Option (String × String) :=
  (docs.find? (fun row => row.s3_key = k)).map (fun row =>
    (row.id, row.file_type))

/-- A parsed unit with the given text and page metadata. -/
def mkUnit (text : String) (page : Option Nat) : ParsedUnit :=
  { page_content := text,
    metadata := { page := page, page_number := none, source := some "s3" } }

/-- A documents row in the given status with empty optional columns. -/
def mkDoc (id key file_type status : String) : DocRow :=
  { id := id, user_id := "u1", filename := "f", file_type := file_type,
    file_size := 4, status := status, error_message := none,
    page_count := none, chunk_count := none, s3_key := key }

/-- Environment in which every external collaborator succeeds:
each stored object loads as one plain-text unit without page metadata,
the splitter returns its input units as the chunks, and the embedder
returns one 3-dimensional vector per text. -/
def okEnv : Env :=
  { configOk := true,
    s3BucketName := "doctalk-bucket",
    downloadOk := fun _ => true,
    loaderInitErr := fun _ => none,
    loadResult := fun key => .ok [mkUnit ("content of " ++ key) none],
    split := fun documents => documents,
    embed := fun texts => .ok (texts.map (fun _ => [1, 2, 3])),
    updateFails := fun _ _ => false,
    insertFails := fun _ => false,
    lookupFails := fun _ => false }

/-- A stale chunk row left by a previous successful run of document d1. -/
def staleRow : ChunkRow :=
  { document_id := "d1", content := "old chunk", embedding := some [9, 9, 9],
    chunk_index := 0, page_number := 1,
    metadata := { source := "s3", total_chunks := 1,
                  page := none, page_number := none } }

/-- Database in which d1 already finished a run (status ready, one stored
chunk row): the reprocessing scenario. -/
def reprocessDb : DbState :=
  { documents := [{ mkDoc "d1" "k1" "text/plain" "ready" with
                     page_count := some 1, chunk_count := some 1 }],
    chunks := [staleRow] }

def reprocessSt : LocalState :=
  { db := reprocessDb, tmpFiles := [], nextTmp := 0 }

/-- Database with a single never-processed document. -/
def freshSt : LocalState :=
  { db := { documents := [mkDoc "d1" "k1" "text/plain" "pending"],
            chunks := [] },
    tmpFiles := [], nextTmp := 0 }

/-- Environment in which the S3 download itself fails. -/
def downloadFailEnv : Env :=
  { okEnv with downloadOk := fun _ => false }

/-- Environment in which loader.load() raises on a corrupted file. -/
def corruptEnv : Env :=
  { okEnv with loadResult := fun _ => .error (.otherError "corrupt file") }

/-- Environment in which a loader constructor raises. -/
def initFailEnv : Env :=
  { okEnv with loaderInitErr := fun _ => some "boom" }

/-- Prior chunk rows of document d4 from an earlier two-chunk run. -/
def d4PriorRows : List ChunkRow :=
  [{ staleRow with document_id := "d4" },
   { staleRow with document_id := "d4", chunk_index := 1 }]

/-- Reprocessing state for d4: ready with two stored rows, while the
unchanged content now parses into three units. -/
def d4St : LocalState :=
  { db := { documents := [{ mkDoc "d4" "k4" "text/plain" "ready" with
                             page_count := some 1, chunk_count := some 2 }],
            chunks := d4PriorRows },
    tmpFiles := [], nextTmp := 0 }

/-- Environment whose object at any key parses into three units. -/
def threeUnitEnv : Env :=
  { okEnv with loadResult := fun _ =>
      Except.ok [mkUnit "aa" none, mkUnit "bb" none, mkUnit "cc" none] }

/-- Environment whose object parses into a single unit whose page metadata
is present with value 0 (as the 0-based PDF loader emits for page one). -/
def zeroPageEnv : Env :=
  { okEnv with loadResult := fun _ => .ok [mkUnit "page zero text" (some 0)] }

/-- State for the zero-page scenario. -/
def d8St : LocalState :=
  { db := { documents := [mkDoc "d8" "k8" "application/pdf" "pending"],
            chunks := [] },
    tmpFiles := [], nextTmp := 0 }

/-- Batch fixture: three pending documents, the middle one declared with an
unsupported content type. -/
def batchSt : LocalState :=
  { db := { documents := [mkDoc "d1" "k1" "text/plain" "pending",
                          mkDoc "d2" "k2" "image/png" "pending",
                          mkDoc "d3" "k3" "text/markdown" "pending"],
            chunks := [] },
    tmpFiles := [], nextTmp := 0 }

/-- An SQS record whose S3 event points at the given bucket and key. -/
def mkRecord (bucket key : String) : SqsRecord :=
  { body := .parsed none (some [{ bucket := some bucket, key := some key }]) }

/-- The three-record batch over batchSt. -/
def batchRecords : List SqsRecord :=
  [mkRecord "doctalk-bucket" "k1",
   mkRecord "doctalk-bucket" "k2",
   mkRecord "doctalk-bucket" "k3"]

/-- A synthetic S3 test-event record. -/
def testEventRecord : SqsRecord :=
  { body := .parsed (some "s3:TestEvent") none }

/-- The intermediate state the corrupt-file run reaches inside the try
block right before raising: status already processing, scratch file on
disk. -/
def corruptBodySt : LocalState :=
  { db := { documents := [mkDoc "d1" "k1" "text/plain" "processing"],
            chunks := [] },
    tmpFiles := ["/tmp/scratch0"], nextTmp := 1 }

/-- Environment whose loader extracts zero units from the stored object. -/
def emptyDocEnv : Env :=
  { okEnv with loadResult := fun _ => Except.ok [] }

/-- Document row with previously stored error and counts, for observing
that the processing transition clears them. -/
def c10Db : DbState :=
  { documents := [{ mkDoc "d1" "k1" "text/plain" "failed" with
                     error_message := some "old error",
                     page_count := some 7, chunk_count := some 9 }],
    chunks := [] }

def c10St : LocalState :=
  { db := c10Db, tmpFiles := [], nextTmp := 0 }

/-- Environment in which the download fails and the failed-status write
also fails (so the run stops with the processing write as the last one). -/
def dlFailSwallowEnv : Env :=
  { okEnv with downloadOk := fun _ => false,
               updateFails := fun _ s => decide (s = "failed") }

theorem update_document_status_chunks (db : DbState) (i s : String)
    (em : Option String) (pc cc : Option Nat) :
    ((update_document_status db i s em pc cc).2).chunks = db.chunks := rfl

theorem cleanup_temp_db (st : LocalState) (tp : Option String) :
    (cleanup_temp st tp).db = st.db := by
  cases tp with
  | none => rfl
  | some p =>
    dsimp [cleanup_temp]
    split <;> rfl

theorem list_map_ext {α β : Type} (f g : α → β) (l : List α)
    (h : ∀ a, f a = g a) : l.map f = l.map g := by
  induction l with
  | nil => rfl
  | cons a t ih => simp [h, ih]

theorem buildDbChunks_length (cs : List ParsedUnit) (es : List (List Int)) :
    (buildDbChunks cs es).length = min cs.length es.length := by
  simp [buildDbChunks]

/-- Core success-path lemma: when every stage of one document's pipeline
succeeds and the embedder returns one vector per text, process_document
returns ready with the code's page count and the chunk count, appends
exactly the built rows, and rewrites the document's status row. -/
theorem process_document_success
    (env : Env) (st : LocalState) (document_id s3_key file_type : String)
    (documents : List ParsedUnit) (embeddings : List (List Int))
    (k : LoaderKind)
    (hup : env.updateFails document_id "processing" = false)
    (hdl : env.downloadOk s3_key = true)
    (hcls : loaderClassFor file_type = some k)
    (hinit : env.loaderInitErr file_type = none)
    (hload : env.loadResult s3_key = Except.ok documents)
    (hne : ¬ documents = [])
    (hcne : ¬ env.split documents = [])
    (hemb : env.embed ((env.split documents).map (fun c => c.page_content)) =
      Except.ok embeddings)
    (hlen : embeddings.length = (env.split documents).length)
    (hins : env.insertFails document_id = false)
    (hupr : env.updateFails document_id "ready" = false) :
    process_document env st document_id s3_key file_type =
      (Except.ok { document_id := document_id, status := "ready",
                   page_count := pageCountOf documents (env.split documents),
                   chunk_count := (env.split documents).length },
       { db := { documents := st.db.documents.map
                   (readyRow document_id
                     (pageCountOf documents (env.split documents))
                     ((env.split documents).length)),
                 chunks := st.db.chunks ++
                   insertedRows document_id (env.split documents) embeddings },
         tmpFiles := (st.tmpFiles ++ [tmpName st.nextTmp]).filter
           (fun q => ¬ (q = tmpName st.nextTmp)),
         nextTmp := st.nextTmp + 1 }) := by
  have hchlen : (buildDbChunks (env.split documents) embeddings).length =
      (env.split documents).length := by
    rw [buildDbChunks_length, hlen, Nat.min_self]
  have hdcne : ¬ buildDbChunks (env.split documents) embeddings = [] := by
    intro h
    apply hcne
    have hl := congrArg List.length h
    rw [hchlen] at hl
    exact List.length_eq_zero.mp hl
  simp [process_document, process_document_body, download_from_s3,
    get_loader_for_file_type, bulk_insert_chunks, cleanup_temp,
    hup, hdl, hcls, hinit, hload, hemb, hins, hupr, hne, hcne, hdcne,
    hchlen, insertedRows]
  simp [update_document_status, List.map_map]
  intro row _
  by_cases h : row.id = document_id <;> simp [readyRow, h]

/-- C1: reprocessing is claimed to first clear the document's prior chunk
set, so that a run reaching ready leaves no stale rows and no duplicate
chunk_index values.  The pipeline never calls delete_document_chunks:
reprocessing a ready one-chunk document with unchanged one-chunk content
completes to ready with chunk_count 1, yet the stored set keeps the stale
row and holds chunk_index 0 twice. -/
theorem c1_reprocess_keeps_stale_rows :
    (process_document okEnv reprocessSt "d1" "k1" "text/plain").1 =
      Except.ok { document_id := "d1", status := "ready",
                  page_count := 1, chunk_count := 1 } ∧
    ((process_document okEnv reprocessSt "d1" "k1" "text/plain").2.db.chunks.map
        (fun c => c.chunk_index)) = [0, 0] ∧
    staleRow ∈ (process_document okEnv reprocessSt "d1" "k1" "text/plain").2.db.chunks ∧
    ¬ ((process_document okEnv reprocessSt "d1" "k1" "text/plain").2.db.chunks.map
        (fun c => c.chunk_index)).Nodup := by
  refine ⟨rfl, rfl, ?_, ?_⟩ <;> decide

/-- C6: the scratch file is claimed to be removed on all exit paths,
including a failure of the blob download itself.  download_from_s3 creates
the temporary file before fetching, and a fetch failure raises before the
path is assigned to temp_file_path, so the finally-block cleanup skips the
file: it is leaked.  On paths where the download returned (success or a
later failure) the file is removed. -/
theorem c6_download_failure_leaks_scratch_file :
    (process_document downloadFailEnv freshSt "d1" "k1" "text/plain").2.tmpFiles =
      ["/tmp/scratch0"] ∧
    (process_document downloadFailEnv freshSt "d1" "k1" "text/plain").1 =
      Except.error (.otherError "Failed to download s3://doctalk-bucket/k1") ∧
    (process_document okEnv freshSt "d1" "k1" "text/plain").2.tmpFiles = [] ∧
    (process_document corruptEnv freshSt "d1" "k1" "text/plain").2.tmpFiles = [] := by
  exact ⟨rfl, rfl, rfl, rfl⟩

/-- C2: whenever the try block of one document's pipeline raises, the
original exception is re-raised unchanged — also when the best-effort
write of the failed status itself fails, which is swallowed; when that
write goes through, the document's row is set to failed carrying str(e);
and in the batch loop a failing record adds one to the failure count
while the remaining records are still processed. -/
theorem c2_failure_reraised_best_effort_status
    (env : Env) (st : LocalState) (document_id s3_key file_type : String)
    (e : PyErr) (st1 : LocalState) (tp : Option String)
    (hbody : process_document_body env st document_id s3_key file_type =
      (Except.error e, st1, tp)) :
    (process_document env st document_id s3_key file_type).1 =
      Except.error e ∧
    (env.updateFails document_id "failed" = false →
      (process_document env st document_id s3_key file_type).2.db.documents =
        st1.db.documents.map (fun row =>
          if row.id = document_id then
            { row with status := "failed", error_message := some e.msg,
                       page_count := none, chunk_count := none }
          else row)) ∧
    (env.updateFails document_id "failed" = true →
      (process_document env st document_id s3_key file_type).2.db = st1.db) ∧
    (∀ (st0 : LocalState) (r : SqsRecord) (rest : List SqsRecord),
      (processRecord env st0 r).2 = RecordOutcome.failed →
      runRecords env st0 (r :: rest) =
        ((runRecords env (processRecord env st0 r).1 rest).1,
         (runRecords env (processRecord env st0 r).1 rest).2.1,
         (runRecords env (processRecord env st0 r).1 rest).2.2 + 1)) := by
  refine ⟨?_, ?_, ?_, ?_⟩
  · simp [process_document, hbody]
  · intro hfw
    simp [process_document, hbody, cleanup_temp_db, hfw,
      update_document_status]
  · intro hfw
    simp [process_document, hbody, cleanup_temp_db, hfw]
  · intro st0 r rest h
    simp [runRecords, h]

theorem update_document_status_rowView (db : DbState) (i s : String)
    (em : Option String) (pc cc : Option Nat) :
    ((update_document_status db i s em pc cc).2).documents.map rowView =
      db.documents.map rowView := by
  simp [update_document_status, List.map_map]
  intro row _
  by_cases h : row.id = i <;> simp [rowView, h]

/-- The pipeline's returned value (success dictionary or raised exception)
is a function of the environment and the call arguments only: it does not
depend on the database or scratch state it starts from.  Moreover the try
block only ever rewrites status columns of documents rows, never their
identifying fields. -/
theorem process_document_body_facts (env : Env) (st st' : LocalState)
    (document_id s3_key file_type : String) :
    (process_document_body env st document_id s3_key file_type).1 =
      (process_document_body env st' document_id s3_key file_type).1 ∧
    (process_document_body env st document_id s3_key file_type).2.1.db.documents.map rowView =
      st.db.documents.map rowView := by
  by_cases h1 : env.updateFails document_id "processing"
  · simp [process_document_body, h1]
  · by_cases h2 : env.downloadOk s3_key
    · cases h3 : loaderClassFor file_type with
      | none =>
        simp [process_document_body, download_from_s3,
          get_loader_for_file_type, h1, h2, h3,
          update_document_status_rowView]
      | some kk =>
        cases h4 : env.loaderInitErr file_type with
        | some m =>
          simp [process_document_body, download_from_s3,
            get_loader_for_file_type, h1, h2, h3, h4,
            update_document_status_rowView]
        | none =>
          cases h5 : env.loadResult s3_key with
          | error e =>
            simp [process_document_body, download_from_s3,
              get_loader_for_file_type, h1, h2, h3, h4, h5,
              update_document_status_rowView]
          | ok documents =>
            by_cases h6 : documents = []
            · simp [process_document_body, download_from_s3,
                get_loader_for_file_type, h1, h2, h3, h4, h5, h6,
                update_document_status_rowView]
            · by_cases h7 : env.split documents = []
              · simp [process_document_body, download_from_s3,
                  get_loader_for_file_type, h1, h2, h3, h4, h5, h6, h7,
                  update_document_status_rowView]
              · cases h8 : env.embed ((env.split documents).map
                    (fun c => c.page_content)) with
                | error e =>
                  simp [process_document_body, download_from_s3,
                    get_loader_for_file_type, h1, h2, h3, h4, h5, h6, h7,
                    h8, update_document_status_rowView]
                | ok embeddings =>
                  by_cases h9 : buildDbChunks (env.split documents) embeddings = []
                  · by_cases h11 : env.updateFails document_id "ready" <;>
                      simp [process_document_body, download_from_s3,
                        get_loader_for_file_type, bulk_insert_chunks, h1, h2,
                        h3, h4, h5, h6, h7, h8, h9, h11,
                        update_document_status_rowView]
                  · by_cases h10 : env.insertFails document_id
                    · simp [process_document_body, download_from_s3,
                        get_loader_for_file_type, bulk_insert_chunks, h1, h2,
                        h3, h4, h5, h6, h7, h8, h9, h10,
                        update_document_status_rowView]
                    · by_cases h11 : env.updateFails document_id "ready" <;>
                        simp [process_document_body, download_from_s3,
                          get_loader_for_file_type, bulk_insert_chunks, h1,
                          h2, h3, h4, h5, h6, h7, h8, h9, h10, h11,
                          update_document_status_rowView]
    · simp [process_document_body, download_from_s3, h1, h2,
        update_document_status_rowView]

theorem process_document_fst_eq_body_fst (env : Env) (st : LocalState)
    (document_id s3_key file_type : String) :
    (process_document env st document_id s3_key file_type).1 =
      (process_document_body env st document_id s3_key file_type).1 := by
  rcases hb : process_document_body env st document_id s3_key file_type with
    ⟨res, st1, tp⟩
  cases res <;> simp [process_document, hb]

theorem process_document_fst_indep (env : Env) (st st' : LocalState)
    (document_id s3_key file_type : String) :
    (process_document env st document_id s3_key file_type).1 =
      (process_document env st' document_id s3_key file_type).1 := by
  rw [process_document_fst_eq_body_fst, process_document_fst_eq_body_fst]
  exact (process_document_body_facts env st st' document_id s3_key file_type).1

theorem process_document_rowView (env : Env) (st : LocalState)
    (document_id s3_key file_type : String) :
    (process_document env st document_id s3_key file_type).2.db.documents.map rowView =
      st.db.documents.map rowView := by
  have h2 := (process_document_body_facts env st st document_id s3_key file_type).2
  rcases hb : process_document_body env st document_id s3_key file_type with
    ⟨res, st1, tp⟩
  rw [hb] at h2
  cases res with
  | ok r =>
    simp only [process_document, hb]
    rw [cleanup_temp_db]
    exact h2
  | error e =>
    simp only [process_document, hb]
    rw [cleanup_temp_db]
    by_cases hf : env.updateFails document_id "failed"
    · simp only [hf, if_true]
      exact h2
    · simp only [Bool.not_eq_true] at hf
      simp only [hf, Bool.false_eq_true, if_false]
      rw [update_document_status_rowView]
      exact h2

theorem lookupView_eq_of_rowView_eq (docs1 docs2 : List DocRow)
    (h : docs1.map rowView = docs2.map rowView) (q : String) :
    lookupView docs1 q = lookupView docs2 q := by
  induction docs1 generalizing docs2 with
  | nil =>
    cases docs2 with
    | nil => rfl
    | cons b t2 => simp at h
  | cons a t ih =>
    cases docs2 with
    | nil => simp at h
    | cons b t2 =>
      simp only [List.map_cons, List.cons.injEq, rowView, Prod.mk.injEq] at h
      obtain ⟨⟨hk, hi, hf⟩, hrest⟩ := h
      by_cases hka : a.s3_key = q
      · simp [lookupView, List.find?_cons, hka, hk ▸ hka, hi, hf, ← hk]
      · have hkb : ¬ (b.s3_key = q) := by rw [← hk]; exact hka
        have := ih t2 hrest
        simpa [lookupView, List.find?_cons, hka, hkb] using this

theorem processEntry_snd_of_view (env : Env) (st st' : LocalState)
    (entry : S3ObjectRef)
    (h : ∀ q, lookupView st.db.documents q = lookupView st'.db.documents q) :
    (processEntry env st entry).2 = (processEntry env st' entry).2 := by
  by_cases hbk : entry.bucket.getD "" = "" ∨ entry.key.getD "" = ""
  · simp [processEntry, hbk]
  · by_cases hlf : env.lookupFails (entry.key.getD "")
    · simp [processEntry, hbk, hlf]
    · have hv := h (entry.key.getD "")
      simp only [lookupView] at hv
      cases hd : get_document_by_s3_key st.db (entry.key.getD "") with
      | none =>
        cases hd' : get_document_by_s3_key st'.db (entry.key.getD "") with
        | none => simp [processEntry, hbk, hlf, hd, hd']
        | some doc' =>
          exfalso
          simp only [get_document_by_s3_key] at hd hd'
          rw [hd, hd'] at hv
          simp at hv
      | some doc =>
        cases hd' : get_document_by_s3_key st'.db (entry.key.getD "") with
        | none =>
          exfalso
          simp only [get_document_by_s3_key] at hd hd'
          rw [hd, hd'] at hv
          simp at hv
        | some doc' =>
          have hid : doc.id = doc'.id ∧ doc.file_type = doc'.file_type := by
            simp only [get_document_by_s3_key] at hd hd'
            rw [hd, hd'] at hv
            simpa using hv
          obtain ⟨hi, hf⟩ := hid
          have hres := process_document_fst_indep env st st' doc.id
            (entry.key.getD "") doc.file_type
          rcases hp : process_document env st doc.id
              (entry.key.getD "") doc.file_type with ⟨res, st2⟩
          rcases hp' : process_document env st' doc.id
              (entry.key.getD "") doc.file_type with ⟨res', st2'⟩
          rw [hp, hp'] at hres
          simp only at hres
          subst hres
          simp only [processEntry]
          simp only [if_neg hbk]
          simp only [Bool.not_eq_true] at hlf
          simp only [hlf, Bool.false_eq_true, if_false, hd, hd', ← hi, ← hf,
            hp, hp']
          cases res <;> rfl

theorem processRecord_snd_of_view (env : Env) (st st' : LocalState)
    (r : SqsRecord)
    (h : ∀ q, lookupView st.db.documents q = lookupView st'.db.documents q) :
    (processRecord env st r).2 = (processRecord env st' r).2 := by
  rcases r with ⟨body⟩
  cases body with
  | malformed => rfl
  | parsed event records =>
    by_cases he : event = some "s3:TestEvent"
    · simp [processRecord, he]
    · cases records with
      | none =>
        simpa [processRecord, he] using
          processEntry_snd_of_view env st st' { bucket := none, key := none } h
      | some l =>
        cases l with
        | nil => simp [processRecord, he]
        | cons a t =>
          simpa [processRecord, he] using
            processEntry_snd_of_view env st st' a h

theorem processEntry_rowView (env : Env) (st : LocalState)
    (entry : S3ObjectRef) :
    ((processEntry env st entry).1).db.documents.map rowView =
      st.db.documents.map rowView := by
  by_cases hbk : entry.bucket.getD "" = "" ∨ entry.key.getD "" = ""
  · simp [processEntry, hbk]
  · by_cases hlf : env.lookupFails (entry.key.getD "")
    · simp [processEntry, hbk, hlf]
    · cases hd : get_document_by_s3_key st.db (entry.key.getD "") with
      | none => simp [processEntry, hbk, hlf, hd]
      | some doc =>
        have hpv := process_document_rowView env st doc.id
          (entry.key.getD "") doc.file_type
        rcases hp : process_document env st doc.id
            (entry.key.getD "") doc.file_type with ⟨res, st2⟩
        rw [hp] at hpv
        cases res <;> simp [processEntry, hbk, hlf, hd, hp] <;> exact hpv

theorem processRecord_rowView (env : Env) (st : LocalState) (r : SqsRecord) :
    ((processRecord env st r).1).db.documents.map rowView =
      st.db.documents.map rowView := by
  rcases r with ⟨body⟩
  cases body with
  | malformed => rfl
  | parsed event records =>
    by_cases he : event = some "s3:TestEvent"
    · simp [processRecord, he]
    · cases records with
      | none =>
        simpa [processRecord, he] using
          processEntry_rowView env st { bucket := none, key := none }
      | some l =>
        cases l with
        | nil => simp [processRecord, he]
        | cons a t => simpa [processRecord, he] using processEntry_rowView env st a

theorem list_filterMap_ext {α β : Type} (f g : α → Option β) (l : List α)
    (h : ∀ a ∈ l, f a = g a) : l.filterMap f = l.filterMap g := by
  induction l with
  | nil => rfl
  | cons a t ih =>
    rw [List.filterMap_cons, List.filterMap_cons, h a (by simp),
      ih (fun b hb => h b (by simp [hb]))]

theorem list_countP_ext {α : Type} (p q : α → Bool) (l : List α)
    (h : ∀ a ∈ l, p a = q a) : l.countP p = l.countP q := by
  induction l with
  | nil => rfl
  | cons a t ih =>
    rw [List.countP_cons, List.countP_cons, h a (by simp),
      ih (fun b hb => h b (by simp [hb]))]

theorem result_ok_eq (pr : ProcResult) :
    (RecordOutcome.ok pr).result = some pr := rfl

theorem result_failed_eq : (RecordOutcome.failed).result = none := rfl

theorem result_skipped_eq : (RecordOutcome.skipped).result = none := rfl

theorem isFailed_ok_eq (pr : ProcResult) :
    (RecordOutcome.ok pr).isFailed = false := rfl

theorem isFailed_failed_eq : (RecordOutcome.failed).isFailed = true := rfl

theorem isFailed_skipped_eq : (RecordOutcome.skipped).isFailed = false := rfl

/-- Batch isolation: every record's contribution to the batch report is
the outcome it would have had from the initial state — the success results
are the filterMap of per-record outcomes and the failure count is their
count, so no record's failure (or success) alters its siblings' outcomes. -/
theorem runRecords_outcomes (env : Env) (st : LocalState)
    (records : List SqsRecord) :
    (runRecords env st records).2.1 =
      records.filterMap (fun r => ((processRecord env st r).2).result) ∧
    (runRecords env st records).2.2 =
      records.countP (fun r => ((processRecord env st r).2).isFailed) := by
  induction records generalizing st with
  | nil => simp [runRecords]
  | cons r rest ih =>
    have hview : ∀ q,
        lookupView ((processRecord env st r).1).db.documents q =
          lookupView st.db.documents q :=
      fun q => lookupView_eq_of_rowView_eq _ _ (processRecord_rowView env st r) q
    have htail := ih ((processRecord env st r).1)
    have hmap : rest.filterMap
        (fun r2 => ((processRecord env ((processRecord env st r).1) r2).2).result) =
        rest.filterMap (fun r2 => ((processRecord env st r2).2).result) :=
      list_filterMap_ext _ _ _
        (fun r2 _ => by rw [processRecord_snd_of_view env _ st r2 hview])
    have hcnt : rest.countP
        (fun r2 => ((processRecord env ((processRecord env st r).1) r2).2).isFailed) =
        rest.countP (fun r2 => ((processRecord env st r2).2).isFailed) :=
      list_countP_ext _ _ _
        (fun r2 _ => by rw [processRecord_snd_of_view env _ st r2 hview])
    cases ho : (processRecord env st r).2 with
    | ok pr =>
      refine ⟨?_, ?_⟩ <;>
        simp [runRecords, ho, List.filterMap_cons, List.countP_cons,
          result_ok_eq, isFailed_ok_eq, htail.1, htail.2, hmap, hcnt]
    | failed =>
      refine ⟨?_, ?_⟩ <;>
        simp [runRecords, ho, List.filterMap_cons, List.countP_cons,
          result_failed_eq, isFailed_failed_eq, htail.1, htail.2, hmap, hcnt]
    | skipped =>
      refine ⟨?_, ?_⟩ <;>
        simp [runRecords, ho, List.filterMap_cons, List.countP_cons,
          result_skipped_eq, isFailed_skipped_eq, htail.1, htail.2, hmap, hcnt]

theorem le_foldl_max (l : List Nat) (a : Nat) : a ≤ l.foldl Nat.max a := by
  induction l generalizing a with
  | nil => exact Nat.le_refl a
  | cons x t ih => exact Nat.le_trans (Nat.le_max_left a x) (ih (Nat.max a x))

theorem mem_le_foldl_max (l : List Nat) (a x : Nat) (hx : x ∈ l) :
    x ≤ l.foldl Nat.max a := by
  induction l generalizing a with
  | nil => simp at hx
  | cons y t ih =>
    rcases List.mem_cons.mp hx with h | h
    · subst h
      exact Nat.le_trans (Nat.le_max_right a x) (le_foldl_max t (Nat.max a x))
    · exact ih (Nat.max a y) h

theorem foldl_max_mem (l : List Nat) (a : Nat) :
    l.foldl Nat.max a = a ∨ l.foldl Nat.max a ∈ l := by
  induction l generalizing a with
  | nil => exact Or.inl rfl
  | cons x t ih =>
    rcases ih (Nat.max a x) with h | h
    · rcases Nat.le_total a x with hax | hxa
      · refine Or.inr (List.mem_cons.mpr (Or.inl ?_))
        rw [List.foldl_cons, h]
        exact Nat.max_eq_right hax
      · refine Or.inl ?_
        rw [List.foldl_cons, h]
        exact Nat.max_eq_left hxa
    · exact Or.inr (List.mem_cons_of_mem x h)

theorem foldl_max_congr (l l' : List Nat)
    (h : ∀ p, p ∈ l ↔ p ∈ l') :
    l.foldl Nat.max 0 = l'.foldl Nat.max 0 := by
  apply Nat.le_antisymm
  · rcases foldl_max_mem l 0 with h0 | hm
    · rw [h0]; exact Nat.zero_le _
    · exact mem_le_foldl_max l' 0 _ ((h _).mp hm)
  · rcases foldl_max_mem l' 0 with h0 | hm
    · rw [h0]; exact Nat.zero_le _
    · exact mem_le_foldl_max l 0 _ ((h _).mpr hm)

theorem truthy_mem_iff (documents chunks : List ParsedUnit)
    (hcov : ∀ u ∈ documents, ∃ c ∈ chunks,
      metaPage c.metadata = metaPage u.metadata)
    (hsrc : ∀ c ∈ chunks, ∃ u ∈ documents,
      metaPage c.metadata = metaPage u.metadata)
    (p : Nat) : p ∈ truthyPageList chunks ↔ p ∈ truthyPageList documents := by
  simp only [truthyPageList, List.mem_filter, List.mem_filterMap,
    decide_eq_true_eq]
  constructor
  · rintro ⟨⟨c, hc, hpc⟩, hp0⟩
    obtain ⟨u, hu, he⟩ := hsrc c hc
    exact ⟨⟨u, hu, by rw [← he]; exact hpc⟩, hp0⟩
  · rintro ⟨⟨u, hu, hpu⟩, hp0⟩
    obtain ⟨c, hc, he⟩ := hcov u hu
    exact ⟨⟨c, hc, by rw [he]; exact hpu⟩, hp0⟩

/-- When the splitter's chunks observe exactly the page metadata of the
parsed units — each unit's page value appears on some chunk and every
chunk's page value comes from some unit — the page count the code computes
over chunks coincides with the amended spec value computed over the units. -/
theorem pageCountOf_eq_unit_page_count (documents chunks : List ParsedUnit)
    (hcov : ∀ u ∈ documents, ∃ c ∈ chunks,
      metaPage c.metadata = metaPage u.metadata)
    (hsrc : ∀ c ∈ chunks, ∃ u ∈ documents,
      metaPage c.metadata = metaPage u.metadata) :
    pageCountOf documents chunks = unit_page_count documents := by
  have hmem := truthy_mem_iff documents chunks hcov hsrc
  have hnil : truthyPageList chunks = [] ↔ truthyPageList documents = [] := by
    constructor <;> intro h
    · rw [List.eq_nil_iff_forall_not_mem]
      intro p hp
      rw [← hmem p] at hp
      rw [h] at hp
      simp at hp
    · rw [List.eq_nil_iff_forall_not_mem]
      intro p hp
      rw [hmem p] at hp
      rw [h] at hp
      simp at hp
  unfold pageCountOf unit_page_count
  by_cases h : truthyPageList documents = []
  · have h' : truthyPageList chunks = [] := hnil.mpr h
    simp [h, h']
  · have h' : ¬ truthyPageList chunks = [] := fun hh => h (hnil.mp hh)
    simp only [h, h', if_false]
    exact foldl_max_congr _ _ hmem

theorem list_map_mem_ext {α β : Type} (f g : α → β) (l : List α)
    (h : ∀ a ∈ l, f a = g a) : l.map f = l.map g := by
  induction l with
  | nil => rfl
  | cons a t ih =>
    rw [List.map_cons, List.map_cons, h a (by simp),
      ih (fun b hb => h b (by simp [hb]))]

theorem map_enumFrom_snd_comp {α β : Type} (f : α → β) (n : Nat)
    (l : List α) :
    (l.enumFrom n).map (fun ie => f ie.2) = l.map f := by
  induction l generalizing n with
  | nil => rfl
  | cons x t ih => simp [List.enumFrom, ih]

theorem map_enumFrom_fst {α : Type} (n : Nat) (l : List α) :
    (l.enumFrom n).map (fun ie => ie.1) = List.range' n l.length := by
  induction l generalizing n with
  | nil => rfl
  | cons x t ih => simp [List.enumFrom, List.range'_succ, ih]

theorem map_fst_comp_zip {α β γ : Type} (f : α → γ) (l1 : List α)
    (l2 : List β) (h : l1.length ≤ l2.length) :
    (l1.zip l2).map (fun p => f p.1) = l1.map f := by
  induction l1 generalizing l2 with
  | nil => rfl
  | cons x t ih =>
    cases l2 with
    | nil => simp at h
    | cons y t2 =>
      rw [List.zip_cons_cons, List.map_cons, List.map_cons,
        ih t2 (by simpa using h)]

theorem map_snd_comp_zip {α β γ : Type} (g : β → γ) (l1 : List α)
    (l2 : List β) (h : l2.length ≤ l1.length) :
    (l1.zip l2).map (fun p => g p.2) = l2.map g := by
  induction l1 generalizing l2 with
  | nil =>
    cases l2 with
    | nil => rfl
    | cons y t2 => simp at h
  | cons x t ih =>
    cases l2 with
    | nil => rfl
    | cons y t2 =>
      rw [List.zip_cons_cons, List.map_cons, List.map_cons,
        ih t2 (by simpa using h)]

theorem insertedRows_chunk_index (document_id : String)
    (cs : List ParsedUnit) (es : List (List Int)) :
    (insertedRows document_id cs es).map (fun c => c.chunk_index) =
      List.range (cs.zip es).length := by
  simp only [insertedRows, buildDbChunks, chunkRowOf, List.map_map,
    List.enum]
  rw [List.range_eq_range']
  exact map_enumFrom_fst 0 (cs.zip es)

theorem insertedRows_content (document_id : String)
    (cs : List ParsedUnit) (es : List (List Int))
    (h : cs.length ≤ es.length) :
    (insertedRows document_id cs es).map (fun c => c.content) =
      cs.map (fun c => c.page_content) := by
  simp only [insertedRows, buildDbChunks, chunkRowOf, List.map_map,
    List.enum]
  refine Eq.trans (list_map_mem_ext _
    (fun ie => ie.2.1.page_content) _ (fun a _ => rfl)) ?_
  rw [map_enumFrom_snd_comp (fun p => p.1.page_content) 0 (cs.zip es)]
  exact map_fst_comp_zip _ cs es h

theorem insertedRows_embedding (document_id : String)
    (cs : List ParsedUnit) (es : List (List Int))
    (h : es.length ≤ cs.length)
    (hv : ∀ v ∈ es, ¬ v = []) :
    (insertedRows document_id cs es).map (fun c => c.embedding) =
      es.map (fun v => some v) := by
  simp only [insertedRows, buildDbChunks, chunkRowOf, List.map_map,
    List.enum]
  refine Eq.trans (list_map_mem_ext _
    (fun (ie : Nat × ParsedUnit × List Int) =>
      if ie.2.2 = [] then (none : Option (List Int)) else some ie.2.2) _
    (fun a _ => rfl)) ?_
  rw [map_enumFrom_snd_comp (fun p => if p.2 = [] then none else some p.2)
    0 (cs.zip es)]
  rw [map_snd_comp_zip (fun v => if v = [] then none else some v) cs es h]
  exact list_map_mem_ext _ _ es (fun v hvm => by simp [hv v hvm])

theorem insertedRows_document_id (document_id : String)
    (cs : List ParsedUnit) (es : List (List Int)) :
    ∀ c ∈ insertedRows document_id cs es, c.document_id = document_id := by
  intro c hc
  simp only [insertedRows, List.mem_map] at hc
  obtain ⟨d, _, rfl⟩ := hc
  rfl

/-- C3: with valid configuration the handler answers 200 exactly when the
failure count is zero and the distinct code 207 otherwise, and its body
carries the success count and total in the message, the failure count, and
one result dictionary per successfully processed document; moreover each
record's outcome is the one computed from the initial state, so one
document's failure leaves the other documents' outcomes unchanged. -/
theorem c3_batch_report (env : Env) (st : LocalState)
    (records : List SqsRecord) (hcfg : env.configOk = true) :
    (lambda_handler env st records).1 =
      { statusCode := if (runRecords env st records).2.2 = 0 then 200 else 207,
        body := ResponseBody.batchBody
          (s!"Processed {(runRecords env st records).2.1.length}/{records.length} documents")
          (runRecords env st records).2.1
          (runRecords env st records).2.2 } ∧
    ((lambda_handler env st records).1.statusCode = 200 ↔
      (runRecords env st records).2.2 = 0) ∧
    ((lambda_handler env st records).1.statusCode = 207 ↔
      ¬ (runRecords env st records).2.2 = 0) ∧
    (runRecords env st records).2.1 =
      records.filterMap (fun r => ((processRecord env st r).2).result) ∧
    (runRecords env st records).2.2 =
      records.countP (fun r => ((processRecord env st r).2).isFailed) := by
  refine ⟨?_, ?_, ?_, (runRecords_outcomes env st records).1,
    (runRecords_outcomes env st records).2⟩
  · simp [lambda_handler, hcfg]
  · by_cases hz : (runRecords env st records).2.2 = 0 <;>
      simp [lambda_handler, hcfg, hz]
  · by_cases hz : (runRecords env st records).2.2 = 0 <;>
      simp [lambda_handler, hcfg, hz]

/-- Witness for C3: the spec's partial-batch scenario — three documents,
the middle one with an unsupported content type — answers 207 with two
ready results and one counted failure. -/
theorem c3_batch_report_witness :
    (lambda_handler okEnv batchSt batchRecords).1.statusCode = 207 ∧
    ((lambda_handler okEnv batchSt batchRecords).1.statusCode = 200 ↔
      (runRecords okEnv batchSt batchRecords).2.2 = 0) ∧
    (runRecords okEnv batchSt batchRecords).2.2 = 1 ∧
    (lambda_handler okEnv batchSt batchRecords).1.body =
      ResponseBody.batchBody "Processed 2/3 documents"
        [{ document_id := "d1", status := "ready",
           page_count := 1, chunk_count := 1 },
         { document_id := "d3", status := "ready",
           page_count := 1, chunk_count := 1 }] 1 := by
  have h := c3_batch_report okEnv batchSt batchRecords rfl
  exact ⟨rfl, h.2.1, rfl, rfl⟩

/-- C9: a test-event record is a no-op for the loop — the run over a batch
containing it equals the run without it (same state, results and failure
count, hence the same status code), while the reported total in the
message counts all input records, the skipped one included. -/
theorem c9_test_event_skipped (env : Env) (st : LocalState)
    (before after : List SqsRecord) (tr : SqsRecord)
    (htest : isTestEventRecord tr = true) (hcfg : env.configOk = true) :
    runRecords env st (before ++ tr :: after) =
      runRecords env st (before ++ after) ∧
    (lambda_handler env st (before ++ tr :: after)).1.statusCode =
      (lambda_handler env st (before ++ after)).1.statusCode ∧
    (lambda_handler env st (before ++ tr :: after)).1.body =
      ResponseBody.batchBody
        ("Processed " ++
          toString (runRecords env st (before ++ after)).2.1.length ++
          "/" ++ toString (before ++ tr :: after).length ++ " documents")
        (runRecords env st (before ++ after)).2.1
        (runRecords env st (before ++ after)).2.2 := by
  have hskip : ∀ st1, processRecord env st1 tr = (st1, RecordOutcome.skipped) := by
    intro st1
    rcases tr with ⟨body⟩
    cases body with
    | malformed => simp [isTestEventRecord] at htest
    | parsed event records =>
      simp only [isTestEventRecord, decide_eq_true_eq] at htest
      simp [processRecord, htest]
  have hrun : ∀ st1, runRecords env st1 (before ++ tr :: after) =
      runRecords env st1 (before ++ after) := by
    intro st1
    induction before generalizing st1 with
    | nil =>
      simp only [List.nil_append, runRecords, hskip st1]
    | cons b bs ih =>
      simp only [List.cons_append, runRecords]
      simp only [List.append_eq, ih]
  refine ⟨hrun st, ?_, ?_⟩
  · simp [lambda_handler, hcfg, hrun st]
  · simp only [lambda_handler, hcfg, hrun st, Bool.not_true, if_true,
      if_false, Bool.false_eq_true, not_true_eq_false]
    rfl

/-- Witness for C9: prefixing the three-document batch with a test-event
record leaves the report identical except for the total, which counts the
skipped record. -/
theorem c9_test_event_skipped_witness :
    runRecords okEnv batchSt ([] ++ testEventRecord :: batchRecords) =
      runRecords okEnv batchSt ([] ++ batchRecords) ∧
    (lambda_handler okEnv batchSt ([] ++ testEventRecord :: batchRecords)).1.statusCode =
      (lambda_handler okEnv batchSt ([] ++ batchRecords)).1.statusCode ∧
    (lambda_handler okEnv batchSt (testEventRecord :: batchRecords)).1.body =
      ResponseBody.batchBody "Processed 2/4 documents"
        [{ document_id := "d1", status := "ready",
           page_count := 1, chunk_count := 1 },
         { document_id := "d3", status := "ready",
           page_count := 1, chunk_count := 1 }] 1 := by
  have h := c9_test_event_skipped okEnv batchSt [] batchRecords
    testEventRecord rfl rfl
  exact ⟨h.1, h.2.1, rfl⟩

/-- C8 counterexample: the claim says page_count equals the maximum
observed page number across the parsed units.  A document parsing into one
unit whose page metadata is present with value 0 (the 0-based PDF loader's
first page) has maximum observed page 0, yet the code's truthiness test
`if page_num:` discards the 0 and falls back to the unit count: the run
reaches ready with page_count 1, not 0. -/
theorem c8_zero_page_metadata_countered :
    zeroPageEnv.loadResult "k8" =
      Except.ok [mkUnit "page zero text" (some 0)] ∧
    (process_document zeroPageEnv d8St "d8" "k8" "application/pdf").1 =
      Except.ok { document_id := "d8", status := "ready",
                  page_count := 1, chunk_count := 1 } ∧
    claimed_page_count [mkUnit "page zero text" (some 0)] = 0 ∧
    ¬ (1 : Nat) = 0 := ⟨rfl, rfl, rfl, by decide⟩

/-- C8 amended: on a fully successful run the document reaches ready with
chunk_count equal to the number of chunks persisted, and page_count equal
to the maximum observed nonzero page number across the parsed units
(page values of 0 are treated like absent metadata), falling back to the
unit count when none is observed — provided the splitter's chunks carry
exactly the units' page metadata. -/
theorem c8_amended_ready_counts
    (env : Env) (st : LocalState) (document_id s3_key file_type : String)
    (documents : List ParsedUnit) (embeddings : List (List Int))
    (k : LoaderKind)
    (hup : env.updateFails document_id "processing" = false)
    (hdl : env.downloadOk s3_key = true)
    (hcls : loaderClassFor file_type = some k)
    (hinit : env.loaderInitErr file_type = none)
    (hload : env.loadResult s3_key = Except.ok documents)
    (hne : ¬ documents = [])
    (hcne : ¬ env.split documents = [])
    (hemb : env.embed ((env.split documents).map (fun c => c.page_content)) =
      Except.ok embeddings)
    (hlen : embeddings.length = (env.split documents).length)
    (hins : env.insertFails document_id = false)
    (hupr : env.updateFails document_id "ready" = false)
    (hcov : ∀ u ∈ documents, ∃ c ∈ env.split documents,
      metaPage c.metadata = metaPage u.metadata)
    (hsrc : ∀ c ∈ env.split documents, ∃ u ∈ documents,
      metaPage c.metadata = metaPage u.metadata) :
    (process_document env st document_id s3_key file_type).1 =
      Except.ok { document_id := document_id, status := "ready",
                  page_count := unit_page_count documents,
                  chunk_count := (env.split documents).length } ∧
    (process_document env st document_id s3_key file_type).2.db.documents =
      st.db.documents.map (readyRow document_id (unit_page_count documents)
        ((env.split documents).length)) ∧
    (process_document env st document_id s3_key file_type).2.db.chunks.length =
      st.db.chunks.length + (env.split documents).length := by
  have hpc := pageCountOf_eq_unit_page_count documents (env.split documents)
    hcov hsrc
  have hmain := process_document_success env st document_id s3_key file_type
    documents embeddings k hup hdl hcls hinit hload hne hcne hemb hlen hins hupr
  rw [hpc] at hmain
  refine ⟨?_, ?_, ?_⟩
  · rw [hmain]
  · rw [hmain]
  · rw [hmain]
    simp [insertedRows, buildDbChunks_length, hlen]

/-- Witness for C8 amended: the zero-page document — the amended page
count is the fallback unit count 1, matching the run. -/
theorem c8_amended_ready_counts_witness :
    (process_document zeroPageEnv d8St "d8" "k8" "application/pdf").1 =
      Except.ok { document_id := "d8", status := "ready",
                  page_count := unit_page_count [mkUnit "page zero text" (some 0)],
                  chunk_count := 1 } ∧
    (process_document zeroPageEnv d8St "d8" "k8" "application/pdf").2.db.chunks.length = 1 := by
  have h := c8_amended_ready_counts zeroPageEnv d8St "d8" "k8"
    "application/pdf" [mkUnit "page zero text" (some 0)] [[1, 2, 3]]
    LoaderKind.pypdf rfl rfl rfl rfl rfl (by decide) (by decide) rfl rfl
    rfl rfl (fun u hu => ⟨u, hu, rfl⟩) (fun c hc => ⟨c, hc, rfl⟩)
  exact ⟨h.1, by simpa using h.2.2⟩

/-- C4 counterexample: the claim says the persisted chunk records of a
document that reaches ready have chunk_index values forming exactly
0..chunk_count-1.  Reprocessing a ready document that already has two
stored rows (indices 0 and 1) with content that now yields three chunks ends
ready with chunk_count 3, but the stored rows carry indices [0,1,0,1,2] —
not the range 0..2 — because the prior rows are never deleted. -/
theorem c4_stale_rows_break_contiguity :
    (process_document threeUnitEnv d4St "d4" "k4" "text/plain").1 =
      Except.ok { document_id := "d4", status := "ready",
                  page_count := 3, chunk_count := 3 } ∧
    (((process_document threeUnitEnv d4St "d4" "k4" "text/plain").2.db.chunks.filter
        (fun c => c.document_id = "d4")).map (fun c => c.chunk_index)) =
      [0, 1, 0, 1, 2] ∧
    ¬ ([0, 1, 0, 1, 2] : List Nat) = List.range 3 := ⟨rfl, rfl, by decide⟩

/-- C4 amended: the chunk rows a successful run inserts have chunk_index
values forming exactly 0..chunk_count-1 in order, with row i pairing the
i-th chunk text with the i-th embedding vector; for a document with no
pre-existing chunk rows these are exactly the stored rows. -/
theorem c4_amended_inserted_rows_contiguous
    (env : Env) (st : LocalState) (document_id s3_key file_type : String)
    (documents : List ParsedUnit) (embeddings : List (List Int))
    (k : LoaderKind)
    (hup : env.updateFails document_id "processing" = false)
    (hdl : env.downloadOk s3_key = true)
    (hcls : loaderClassFor file_type = some k)
    (hinit : env.loaderInitErr file_type = none)
    (hload : env.loadResult s3_key = Except.ok documents)
    (hne : ¬ documents = [])
    (hcne : ¬ env.split documents = [])
    (hemb : env.embed ((env.split documents).map (fun c => c.page_content)) =
      Except.ok embeddings)
    (hlen : embeddings.length = (env.split documents).length)
    (hins : env.insertFails document_id = false)
    (hupr : env.updateFails document_id "ready" = false)
    (hvec : ∀ v ∈ embeddings, ¬ v = [])
    (hfresh : ∀ c ∈ st.db.chunks, ¬ c.document_id = document_id) :
    ((process_document env st document_id s3_key file_type).2.db.chunks.filter
        (fun c => c.document_id = document_id)).map (fun c => c.chunk_index) =
      List.range ((env.split documents).length) ∧
    ((process_document env st document_id s3_key file_type).2.db.chunks.filter
        (fun c => c.document_id = document_id)).map (fun c => c.content) =
      (env.split documents).map (fun c => c.page_content) ∧
    ((process_document env st document_id s3_key file_type).2.db.chunks.filter
        (fun c => c.document_id = document_id)).map (fun c => c.embedding) =
      embeddings.map (fun v => some v) ∧
    (process_document env st document_id s3_key file_type).1 =
      Except.ok { document_id := document_id, status := "ready",
                  page_count := pageCountOf documents (env.split documents),
                  chunk_count := (env.split documents).length } := by
  have hmain := process_document_success env st document_id s3_key file_type
    documents embeddings k hup hdl hcls hinit hload hne hcne hemb hlen hins hupr
  have hflt : (process_document env st document_id s3_key
      file_type).2.db.chunks.filter (fun c => c.document_id = document_id) =
      insertedRows document_id (env.split documents) embeddings := by
    rw [hmain]
    simp only [List.filter_append]
    rw [List.filter_eq_nil_iff.mpr (fun c hc => by
      simpa using hfresh c hc)]
    rw [List.filter_eq_self.mpr (fun c hc => by
      simpa using insertedRows_document_id document_id _ _ c hc)]
    exact List.nil_append _
  have hziplen : ((env.split documents).zip embeddings).length =
      (env.split documents).length := by
    rw [List.length_zip, hlen, Nat.min_self]
  refine ⟨?_, ?_, ?_, by rw [hmain]⟩
  · rw [hflt, insertedRows_chunk_index, hziplen]
  · rw [hflt, insertedRows_content _ _ _ (by rw [hlen])]
  · rw [hflt, insertedRows_embedding _ _ _ (by rw [hlen]) hvec]

/-- Witness for C4 amended: a fresh one-chunk document — the single
inserted row has index 0, the chunk's text and its vector. -/
theorem c4_amended_inserted_rows_contiguous_witness :
    ((process_document okEnv freshSt "d1" "k1" "text/plain").2.db.chunks.filter
        (fun c => c.document_id = "d1")).map (fun c => c.chunk_index) =
      List.range 1 ∧
    ((process_document okEnv freshSt "d1" "k1" "text/plain").2.db.chunks.filter
        (fun c => c.document_id = "d1")).map (fun c => c.content) =
      ["content of k1"] ∧
    ((process_document okEnv freshSt "d1" "k1" "text/plain").2.db.chunks.filter
        (fun c => c.document_id = "d1")).map (fun c => c.embedding) =
      [some [1, 2, 3]] := by
  have h := c4_amended_inserted_rows_contiguous okEnv freshSt "d1" "k1"
    "text/plain" [mkUnit "content of k1" none] [[1, 2, 3]]
    LoaderKind.textLoader rfl rfl rfl rfl rfl (by decide) (by decide) rfl
    rfl rfl rfl (by decide) (fun c hc => by simp [freshSt] at hc)
  exact ⟨h.1, h.2.1, h.2.2.1⟩

theorem process_document_chunks_eq_body (env : Env) (st : LocalState)
    (document_id s3_key file_type : String) :
    (process_document env st document_id s3_key file_type).2.db.chunks =
      (process_document_body env st document_id s3_key file_type).2.1.db.chunks := by
  rcases hb : process_document_body env st document_id s3_key file_type with
    ⟨res, st1, tp⟩
  cases res with
  | ok r =>
    simp only [process_document, hb]
    rw [cleanup_temp_db]
  | error e =>
    simp only [process_document, hb]
    rw [cleanup_temp_db]
    by_cases hf : env.updateFails document_id "failed"
    · simp [hf]
    · simp only [Bool.not_eq_true] at hf
      simp [hf, update_document_status_chunks]

/-- The try block's effect on the chunk table is all-or-nothing: either it
is left exactly as it was, or the full built row set of the run was
appended in one transaction. -/
theorem process_document_body_chunks (env : Env) (st : LocalState)
    (document_id s3_key file_type : String) :
    (process_document_body env st document_id s3_key file_type).2.1.db.chunks =
      st.db.chunks ∨
    ∃ documents embeddings,
      env.loadResult s3_key = Except.ok documents ∧
      env.embed ((env.split documents).map (fun c => c.page_content)) =
        Except.ok embeddings ∧
      (process_document_body env st document_id s3_key file_type).2.1.db.chunks =
        st.db.chunks ++ insertedRows document_id (env.split documents) embeddings := by
  by_cases h1 : env.updateFails document_id "processing"
  · exact Or.inl (by simp [process_document_body, h1])
  · by_cases h2 : env.downloadOk s3_key
    · cases h3 : loaderClassFor file_type with
      | none =>
        exact Or.inl (by
          simp [process_document_body, download_from_s3,
            get_loader_for_file_type, h1, h2, h3,
            update_document_status_chunks])
      | some kk =>
        cases h4 : env.loaderInitErr file_type with
        | some m =>
          exact Or.inl (by
            simp [process_document_body, download_from_s3,
              get_loader_for_file_type, h1, h2, h3, h4,
              update_document_status_chunks])
        | none =>
          cases h5 : env.loadResult s3_key with
          | error e =>
            exact Or.inl (by
              simp [process_document_body, download_from_s3,
                get_loader_for_file_type, h1, h2, h3, h4, h5,
                update_document_status_chunks])
          | ok documents =>
            by_cases h6 : documents = []
            · exact Or.inl (by
                simp [process_document_body, download_from_s3,
                  get_loader_for_file_type, h1, h2, h3, h4, h5, h6,
                  update_document_status_chunks])
            · by_cases h7 : env.split documents = []
              · exact Or.inl (by
                  simp [process_document_body, download_from_s3,
                    get_loader_for_file_type, h1, h2, h3, h4, h5, h6, h7,
                    update_document_status_chunks])
              · cases h8 : env.embed ((env.split documents).map
                    (fun c => c.page_content)) with
                | error e =>
                  exact Or.inl (by
                    simp [process_document_body, download_from_s3,
                      get_loader_for_file_type, h1, h2, h3, h4, h5, h6, h7,
                      h8, update_document_status_chunks])
                | ok embeddings =>
                  by_cases h9 : buildDbChunks (env.split documents) embeddings = []
                  · by_cases h11 : env.updateFails document_id "ready" <;>
                      exact Or.inl (by
                        simp [process_document_body, download_from_s3,
                          get_loader_for_file_type, bulk_insert_chunks, h1,
                          h2, h3, h4, h5, h6, h7, h8, h9, h11,
                          update_document_status_chunks])
                  · by_cases h10 : env.insertFails document_id
                    · exact Or.inl (by
                        simp [process_document_body, download_from_s3,
                          get_loader_for_file_type, bulk_insert_chunks, h1,
                          h2, h3, h4, h5, h6, h7, h8, h9, h10,
                          update_document_status_chunks])
                    · refine Or.inr ⟨documents, embeddings, rfl, ?_, ?_⟩
                      · exact h8
                      · by_cases h11 : env.updateFails document_id "ready" <;>
                          simp [process_document_body, download_from_s3,
                            get_loader_for_file_type, bulk_insert_chunks, h1,
                            h2, h3, h4, h5, h6, h7, h8, h9, h10, h11,
                            update_document_status_chunks, insertedRows]
    · exact Or.inl (by
        simp [process_document_body, download_from_s3, h1, h2,
          update_document_status_chunks])

/-- C5: the pipeline never persists a strict subset of a document's chunk
texts.  When the embedder honours its contract (one vector per text, no
empty vectors), any run leaves the chunk table either untouched or
extended by rows covering every submitted text, each paired with its
vector, indexed 0..n-1. -/
theorem c5_no_partial_chunk_sets
    (env : Env) (st : LocalState) (document_id s3_key file_type : String)
    (hlen : ∀ ts vs, env.embed ts = Except.ok vs → vs.length = ts.length)
    (hvec : ∀ ts vs v, env.embed ts = Except.ok vs → v ∈ vs → ¬ v = []) :
    (process_document env st document_id s3_key file_type).2.db.chunks =
      st.db.chunks ∨
    ∃ ts vs rows,
      env.embed ts = Except.ok vs ∧ vs.length = ts.length ∧
      (process_document env st document_id s3_key file_type).2.db.chunks =
        st.db.chunks ++ rows ∧
      rows.map (fun c => c.content) = ts ∧
      rows.map (fun c => c.embedding) = vs.map (fun v => some v) ∧
      rows.map (fun c => c.chunk_index) = List.range ts.length := by
  rw [process_document_chunks_eq_body]
  rcases process_document_body_chunks env st document_id s3_key file_type with
    h | ⟨documents, embeddings, hload, hemb, h⟩
  · exact Or.inl h
  · have hle : embeddings.length = (env.split documents).length := by
      rw [hlen _ _ hemb, List.length_map]
    refine Or.inr ⟨(env.split documents).map (fun c => c.page_content),
      embeddings, insertedRows document_id (env.split documents) embeddings,
      hemb, hlen _ _ hemb, h, ?_, ?_, ?_⟩
    · exact insertedRows_content _ _ _ (Nat.le_of_eq hle.symm)
    · exact insertedRows_embedding _ _ _ (Nat.le_of_eq hle)
        (fun v hv => hvec _ _ v hemb hv)
    · rw [insertedRows_chunk_index, List.length_zip, hle, Nat.min_self,
        List.length_map]

/-- Witness for C5 at a concrete fresh document whose embedder returns one
3-dimensional vector per text. -/
theorem c5_no_partial_chunk_sets_witness :
    (process_document okEnv freshSt "d1" "k1" "text/plain").2.db.chunks =
      freshSt.db.chunks ∨
    ∃ ts vs rows,
      okEnv.embed ts = Except.ok vs ∧ vs.length = ts.length ∧
      (process_document okEnv freshSt "d1" "k1" "text/plain").2.db.chunks =
        freshSt.db.chunks ++ rows ∧
      rows.map (fun c => c.content) = ts ∧
      rows.map (fun c => c.embedding) = vs.map (fun v => some v) ∧
      rows.map (fun c => c.chunk_index) = List.range ts.length := by
  refine c5_no_partial_chunk_sets okEnv freshSt "d1" "k1" "text/plain"
    ?_ ?_
  · intro ts vs hsv
    have hv : vs = ts.map (fun _ => [1, 2, 3]) := by
      simpa [okEnv] using hsv.symm
    rw [hv, List.length_map]
  · intro ts vs v hsv hvm
    have hv : vs = ts.map (fun _ => [1, 2, 3]) := by
      simpa [okEnv] using hsv.symm
    rw [hv] at hvm
    obtain ⟨_, _, rfl⟩ := List.mem_map.mp hvm
    decide

/-- Witness for C2: a document whose loader raises on a corrupted file is
re-raised with the original message and its stored row ends failed with
that non-empty message (and no chunk rows exist for it). -/
theorem c2_failure_reraised_best_effort_status_witness :
    (process_document corruptEnv freshSt "d1" "k1" "text/plain").1 =
      Except.error (.otherError "corrupt file") ∧
    (process_document corruptEnv freshSt "d1" "k1" "text/plain").2.db.documents =
      corruptBodySt.db.documents.map (fun row =>
        if row.id = "d1" then
          { row with status := "failed", error_message := some "corrupt file",
                     page_count := none, chunk_count := none }
        else row) ∧
    (process_document corruptEnv freshSt "d1" "k1" "text/plain").2.db.chunks = [] := by
  have h := c2_failure_reraised_best_effort_status corruptEnv freshSt "d1" "k1"
    "text/plain" (.otherError "corrupt file") corruptBodySt
    (some "/tmp/scratch0") rfl
  exact ⟨h.1, h.2.1 rfl, rfl⟩

/-- C7 counterexample: the repository defines no UnsupportedTypeError
class; an unsupported content type raises ParsingError — the same
exception class as a failing loader constructor — so the two failure
kinds are not distinguishable by the caller's except clause. -/
theorem c7_no_distinct_unsupported_error :
    get_loader_for_file_type okEnv "/tmp/scratch0" "image/png" =
      Except.error (.parsingError "Unsupported file type: image/png") ∧
    get_loader_for_file_type initFailEnv "/tmp/scratch0" "application/pdf" =
      Except.error (.parsingError
        "Failed to initialize loader for application/pdf: boom") ∧
    PyErr.className (.parsingError "Unsupported file type: image/png") =
      PyErr.className (.parsingError
        "Failed to initialize loader for application/pdf: boom") :=
  ⟨rfl, rfl, rfl⟩

/-- C7 amended: dispatch on a content type outside the enumerated set
fails with ParsingError carrying the "Unsupported file type" message; a
loader constructor that throws is wrapped in ParsingError ("Failed to
initialize loader"), and a loader extracting zero units fails the run with
ParsingError ("No content extracted from document") — the kinds are
distinguishable only by message text, not by exception class. -/
theorem c7_amended_parsing_error_kinds
    (env : Env) (path file_type : String) :
    (loaderClassFor file_type = none ↔ ¬ file_type ∈ supportedFileTypes) ∧
    (¬ file_type ∈ supportedFileTypes →
      get_loader_for_file_type env path file_type =
        Except.error (.parsingError
          ("Unsupported file type: " ++ file_type))) ∧
    (∀ m k, loaderClassFor file_type = some k →
      env.loaderInitErr file_type = some m →
      get_loader_for_file_type env path file_type =
        Except.error (.parsingError
          ("Failed to initialize loader for " ++ file_type ++ ": " ++ m))) ∧
    (∀ (st : LocalState) (document_id s3_key : String) (k : LoaderKind),
      env.updateFails document_id "processing" = false →
      env.downloadOk s3_key = true →
      loaderClassFor file_type = some k →
      env.loaderInitErr file_type = none →
      env.loadResult s3_key = Except.ok [] →
      (process_document env st document_id s3_key file_type).1 =
        Except.error (.parsingError "No content extracted from document")) := by
  have hiff : loaderClassFor file_type = none ↔
      ¬ file_type ∈ supportedFileTypes := by
    unfold loaderClassFor supportedFileTypes
    by_cases ha : file_type = "application/pdf" <;>
      by_cases hb : file_type =
        "application/vnd.openxmlformats-officedocument.wordprocessingml.document" <;>
      by_cases hc : file_type = "text/plain" <;>
      by_cases hd : file_type = "text/markdown" <;>
      simp [ha, hb, hc, hd]
  refine ⟨hiff, ?_, ?_, ?_⟩
  · intro hmem
    simp [get_loader_for_file_type, hiff.mpr hmem]
  · intro m k hk hm
    simp [get_loader_for_file_type, hk, hm]
  · intro st document_id s3_key k hup hdl hk hm hload
    rw [process_document_fst_eq_body_fst]
    simp [process_document_body, download_from_s3,
      get_loader_for_file_type, hup, hdl, hk, hm, hload]

/-- Witness for C7 amended: the three failure messages at concrete inputs. -/
theorem c7_amended_parsing_error_kinds_witness :
    get_loader_for_file_type okEnv "/tmp/f.png" "image/png" =
      Except.error (.parsingError "Unsupported file type: image/png") ∧
    get_loader_for_file_type initFailEnv "/tmp/f.txt" "text/plain" =
      Except.error (.parsingError
        "Failed to initialize loader for text/plain: boom") ∧
    (process_document emptyDocEnv freshSt "d1" "k1" "text/plain").1 =
      Except.error (.parsingError "No content extracted from document") := by
  refine ⟨?_, ?_, ?_⟩
  · exact (c7_amended_parsing_error_kinds okEnv "/tmp/f.png"
      "image/png").2.1 (by decide)
  · exact (c7_amended_parsing_error_kinds initFailEnv "/tmp/f.txt"
      "text/plain").2.2.1 "boom" LoaderKind.textLoader rfl rfl
  · exact (c7_amended_parsing_error_kinds emptyDocEnv "/tmp/f.txt"
      "text/plain").2.2.2 freshSt "d1" "k1" LoaderKind.textLoader
      rfl rfl rfl rfl rfl

/-- C10: update_document_status writes all three optional columns on every
call — the matching row gets exactly the supplied values, with omitted
arguments stored as NULL — while rows with other ids are untouched; hence
the unconditional processing transition at the start of a run clears any
previously stored error_message, page_count and chunk_count (observable
when the run then stops: the download fails and the failed-status write is
itself swallowed). -/
theorem c10_status_update_overwrites (db : DbState) (i s : String)
    (em : Option String) (pc cc : Option Nat) :
    (∀ row ∈ (update_document_status db i s em pc cc).2.documents,
      row.id = i →
      row.status = s ∧ row.error_message = em ∧ row.page_count = pc ∧
        row.chunk_count = cc) ∧
    (∀ row ∈ (update_document_status db i s em pc cc).2.documents,
      ¬ row.id = i → row ∈ db.documents) ∧
    (∀ (env : Env) (st : LocalState) (s3_key file_type : String),
      env.updateFails i "processing" = false →
      env.downloadOk s3_key = false →
      env.updateFails i "failed" = true →
      ∀ row ∈ (process_document env st i s3_key file_type).2.db.documents,
        row.id = i →
        row.status = "processing" ∧ row.error_message = none ∧
          row.page_count = none ∧ row.chunk_count = none) := by
  have hgen : ∀ (db2 : DbState) (s2 : String) (em2 : Option String)
      (pc2 cc2 : Option Nat),
      (∀ row ∈ (update_document_status db2 i s2 em2 pc2 cc2).2.documents,
        row.id = i →
        row.status = s2 ∧ row.error_message = em2 ∧ row.page_count = pc2 ∧
          row.chunk_count = cc2) ∧
      (∀ row ∈ (update_document_status db2 i s2 em2 pc2 cc2).2.documents,
        ¬ row.id = i → row ∈ db2.documents) := by
    intro db2 s2 em2 pc2 cc2
    constructor
    · intro row hrow hid
      simp only [update_document_status, List.mem_map] at hrow
      obtain ⟨orig, horig, rfl⟩ := hrow
      by_cases h : orig.id = i
      · simp [h]
      · simp only [h, if_false] at hid
    · intro row hrow hid
      simp only [update_document_status, List.mem_map] at hrow
      obtain ⟨orig, horig, rfl⟩ := hrow
      by_cases h : orig.id = i
      · exfalso
        apply hid
        simp [h]
      · simpa [h] using horig
  refine ⟨(hgen db s em pc cc).1, (hgen db s em pc cc).2, ?_⟩
  intro env st s3_key file_type hup hdl hfw
  have hdocs : (process_document env st i s3_key file_type).2.db.documents =
      (update_document_status st.db i "processing" none none none).2.documents := by
    simp [process_document, process_document_body, download_from_s3,
      hup, hdl, hfw, cleanup_temp]
  intro row hrow hid
  rw [hdocs] at hrow
  exact (hgen st.db "processing" none none none).1 row hrow hid

/-- Witness for C10: updating a row that held an error message and counts
with omitted optionals stores NULLs, and a run that stops right after the
processing transition has cleared the previously stored values. -/
theorem c10_status_update_overwrites_witness :
    ((update_document_status c10Db "d1" "ready" none (some 2)
        (some 3)).2.documents.getD 0 (mkDoc "x" "x" "x" "x")).status =
      "ready" ∧
    ((update_document_status c10Db "d1" "ready" none (some 2)
        (some 3)).2.documents.getD 0 (mkDoc "x" "x" "x" "x")).error_message =
      none ∧
    ((process_document dlFailSwallowEnv c10St "d1" "k1"
        "text/plain").2.db.documents.getD 0
        (mkDoc "x" "x" "x" "x")).status = "processing" ∧
    ((process_document dlFailSwallowEnv c10St "d1" "k1"
        "text/plain").2.db.documents.getD 0
        (mkDoc "x" "x" "x" "x")).error_message = none ∧
    ((process_document dlFailSwallowEnv c10St "d1" "k1"
        "text/plain").2.db.documents.getD 0
        (mkDoc "x" "x" "x" "x")).page_count = none ∧
    ((process_document dlFailSwallowEnv c10St "d1" "k1"
        "text/plain").2.db.documents.getD 0
        (mkDoc "x" "x" "x" "x")).chunk_count = none := by
  have h := c10_status_update_overwrites c10Db "d1" "ready" none
    (some 2) (some 3)
  have h1 := h.1 ((update_document_status c10Db "d1" "ready" none (some 2)
    (some 3)).2.documents.getD 0 (mkDoc "x" "x" "x" "x"))
    (by decide) (by decide)
  have h3 := h.2.2 dlFailSwallowEnv c10St "k1" "text/plain" rfl rfl rfl
    ((process_document dlFailSwallowEnv c10St "d1" "k1"
      "text/plain").2.db.documents.getD 0 (mkDoc "x" "x" "x" "x"))
    (by decide) (by decide)
  exact ⟨h1.1, h1.2.1, h3.1, h3.2.1, h3.2.2.1, h3.2.2.2⟩

end DocTalk
